import Mathlib

/-
  Shallow embedding of the Odoo remote procedure client
  (src/lib/odoo/client.ts) and the service facade
  (src/services/odooService.ts) of the clean-dashboard repository.

  JavaScript runtime values that flow through the client are modelled by
  the inductive type JVal (JSON-like values plus undefined).  The HTTP
  transport (the axios instance) is modelled by a network oracle of type
  Net mapping each issued Request to its outcome: either a transport
  failure (axios throws) or a well-formed response envelope.  Every
  operation returns, besides its result, the list of requests it issued,
  so that statements about network round-trips can be made precisely.
-/

/-- JavaScript runtime values exchanged with the server: JSON values plus
the undefined value (an absent optional field). -/
inductive JVal where
  | undef : JVal
  | null : JVal
  | bool (b : Bool) : JVal
  | num (n : Int) : JVal
  | str (s : String) : JVal
  | arr (elems : List JVal) : JVal
  | obj (fields : List (String × JVal)) : JVal

/-- JavaScript truthiness of a runtime value (NaN is outside the model). -/
def jsTruthy : JVal → Bool
  | JVal.undef => false
  | JVal.null => false
  | JVal.bool b => b
  | JVal.num n => n != 0
  | JVal.str s => s != ""
  | JVal.arr _ => true
  | JVal.obj _ => true

/-- Truthiness of a nullable field (none models the TypeScript null). -/
def truthyOpt : Option JVal → Bool
  | none => false
  | some v => jsTruthy v

/-- Look a key up in an association list of object fields. -/
def lookupKey : List (String × JVal) → String → Option JVal
  | [], _ => none
  | (k, v) :: rest, key => if k = key then some v else lookupKey rest key

/-- Look a key up in a JVal object; none on non-objects. -/
def JVal.lookup (v : JVal) (key : String) : Option JVal :=
  match v with
  | JVal.obj fs => lookupKey fs key
  | _ => none

/-- The OdooConfig interface of client.ts: url and db are plain strings,
username and password are optional. -/
structure OdooConfig where
  url : String
  db : String
  username : Option String := none
  password : Option String := none

/-- The import.meta.env variables read by the constructor; each may be
absent (none). -/
structure Env where
  VITE_ODOO_URL : Option String := none
  VITE_ODOO_DB : Option String := none
  VITE_ODOO_USERNAME : Option String := none
  VITE_ODOO_PASSWORD : Option String := none

/-- The error object of an OdooResponse envelope. -/
structure OdooError where
  code : Int
  message : String
  data : JVal

/-- The OdooResponse envelope of client.ts; result and error are both
optional fields. -/
structure OdooResponse where
  jsonrpc : String
  id : Int
  result : Option JVal := none
  error : Option OdooError := none

/-- The JSON-RPC payload built by OdooClient.call. -/
structure Payload where
  jsonrpc : String
  method : String
  params : JVal
  id : Int

/-- One HTTP POST issued by the client: the axios base URL, the endpoint
path, and the JSON-RPC payload. -/
structure Request where
  baseURL : String
  endpoint : String
  payload : Payload

/-- Outcome of one HTTP exchange: either axios throws (transport failure)
or a well-formed response envelope arrives. -/
inductive NetOutcome where
  | transportFail (msg : String) : NetOutcome
  | ok (resp : OdooResponse) : NetOutcome

/-- The network oracle standing in for the HTTP transport. -/
def Net : Type := Request → NetOutcome

/-- JavaScript Error values thrown by the client: a plain
new Error(message), or a rethrown axios transport error. -/
inductive JsError where
  | error (message : String) : JsError
  | axios (message : String) : JsError
deriving DecidableEq

/-- The mutable state of an OdooClient instance: the resolved
configuration and the cached uid and sessionId fields.  The uid field is
typed number-or-null in the source but at runtime holds whatever result
value authentication produced, hence Option JVal. -/
structure OdooClient where
  config : OdooConfig
  uid : Option JVal := none
  sessionId : Option String := none

/-- The JavaScript expression a-or-b-or-empty for a plain string a and an
optional string b: a if non-empty, else b if present and non-empty,
else the empty string. -/
def jsStrOr (a : String) (b : Option String) : String :=
  if a = "" then b.getD "" else a

/-- The JavaScript expression a-or-b for two optional strings: a if
present and non-empty, else b unchanged. -/
def jsOptOr (a b : Option String) : Option String :=
  match a with
  | some s => if s = "" then b else some s
  | none => b

/-- The OdooClient constructor: resolve each configuration field against
the environment variables, with empty-string fallback for url and db. -/
def OdooClient.new (config : OdooConfig) (env : Env) : OdooClient :=
  { config :=
      { url := jsStrOr config.url env.VITE_ODOO_URL
        db := jsStrOr config.db env.VITE_ODOO_DB
        username := jsOptOr config.username env.VITE_ODOO_USERNAME
        password := jsOptOr config.password env.VITE_ODOO_PASSWORD } }

/-- Build the request issued for one OdooClient.call invocation. -/
def mkRequest (base endpoint : String) (params : JVal) (reqId : Int) : Request :=
  { baseURL := base
    endpoint := endpoint
    payload := { jsonrpc := "2.0", method := "call", params := params, id := reqId } }

/-- OdooClient.call: build the JSON-RPC payload (reqId models the random
request id), post it, rethrow transport failures, raise new
Error(data.error.message) when the envelope carries an error object, and
otherwise return data.result (undefined when absent). -/
def OdooClient.call (st : OdooClient) (net : Net) (reqId : Int)
    (endpoint : String) (params : JVal) : Except JsError JVal × List Request :=
  let req := mkRequest st.config.url endpoint params reqId
  let outcome : Except JsError JVal :=
    match net req with
    | NetOutcome.transportFail msg => Except.error (JsError.axios msg)
    | NetOutcome.ok resp =>
        match resp.error with
        | some e => Except.error (JsError.error e.message)
        | none => Except.ok (resp.result.getD JVal.undef)
  (outcome, [req])

/-- A nullable string rendered as a JavaScript value (undefined when
absent). -/
def jstr : Option String → JVal
  | none => JVal.undef
  | some s => JVal.str s

/-- The parameter bag sent to the authentication endpoint. -/
def authParams (c : OdooConfig) : JVal :=
  JVal.obj [("db", JVal.str c.db), ("login", jstr c.username), ("password", jstr c.password)]

/-- OdooClient.authenticate: return the cached uid when it is truthy;
otherwise post the credentials, cache a successful result, and replace
any failure by new Error with a fixed message. -/
def OdooClient.authenticate (st : OdooClient) (net : Net) (reqId : Int) :
    Except JsError JVal × OdooClient × List Request :=
  if truthyOpt st.uid then (Except.ok (st.uid.getD JVal.undef), st, [])
  else
    let c := st.call net reqId "/web/session/authenticate" (authParams st.config)
    match c.1 with
    | Except.ok v => (Except.ok v, { st with uid := some v }, c.2)
    | Except.error _ =>
        (Except.error (JsError.error "Failed to authenticate with Odoo"), st, c.2)

/-- The options record of OdooClient.searchRead. -/
structure SearchOptions where
  limit : Option Int := none
  offset : Option Int := none
  order : Option String := none

/-- The JavaScript expression x-or-d for an optional number x: d when x
is absent or zero (falsy), x otherwise. -/
def jsNumOr (x : Option Int) (d : Int) : Int :=
  match x with
  | none => d
  | some n => if n = 0 then d else n

/-- The JavaScript expression x-or-d for an optional string x: d when x
is absent or empty (falsy), x otherwise. -/
def jsStrOrD (x : Option String) (d : String) : String :=
  match x with
  | none => d
  | some s => if s = "" then d else s

/-- The parameter bag sent by searchRead to the search_read endpoint. -/
def searchParams (model : String) (domain : List JVal) (fields : List String)
    (options : SearchOptions) : JVal :=
  JVal.obj [("model", JVal.str model),
            ("domain", JVal.arr domain),
            ("fields", JVal.arr (fields.map JVal.str)),
            ("limit", JVal.num (jsNumOr options.limit 80)),
            ("offset", JVal.num (jsNumOr options.offset 0)),
            ("sort", JVal.str (jsStrOrD options.order ""))]

/-- OdooClient.searchRead: authenticate first (propagating its failure),
then call the search_read endpoint; i1 and i2 model the two random
request ids. -/
def OdooClient.searchRead (st : OdooClient) (net : Net) (i1 i2 : Int)
    (model : String) (domain : List JVal := []) (fields : List String := [])
    (options : SearchOptions := {}) : Except JsError JVal × OdooClient × List Request :=
  match st.authenticate net i1 with
  | (Except.error e, st2, tr) => (Except.error e, st2, tr)
  | (Except.ok _, st2, tr) =>
      let c := st2.call net i2 "/web/dataset/search_read"
        (searchParams model domain fields options)
      (c.1, st2, tr ++ c.2)

/-- The parameter bag sent to the call_kw endpoint. -/
def kwParams (model method : String) (args : List JVal) (kwargs : JVal) : JVal :=
  JVal.obj [("model", JVal.str model),
            ("method", JVal.str method),
            ("args", JVal.arr args),
            ("kwargs", kwargs)]

/-- OdooClient.create: authenticate, then call_kw with method create. -/
def OdooClient.create (st : OdooClient) (net : Net) (i1 i2 : Int)
    (model : String) (values : JVal) : Except JsError JVal × OdooClient × List Request :=
  match st.authenticate net i1 with
  | (Except.error e, st2, tr) => (Except.error e, st2, tr)
  | (Except.ok _, st2, tr) =>
      let c := st2.call net i2 "/web/dataset/call_kw"
        (kwParams model "create" [values] (JVal.obj []))
      (c.1, st2, tr ++ c.2)

/-- OdooClient.write: authenticate, then call_kw with method write. -/
def OdooClient.write (st : OdooClient) (net : Net) (i1 i2 : Int)
    (model : String) (ids : List Int) (values : JVal) :
    Except JsError JVal × OdooClient × List Request :=
  match st.authenticate net i1 with
  | (Except.error e, st2, tr) => (Except.error e, st2, tr)
  | (Except.ok _, st2, tr) =>
      let c := st2.call net i2 "/web/dataset/call_kw"
        (kwParams model "write" [JVal.arr (ids.map JVal.num), values] (JVal.obj []))
      (c.1, st2, tr ++ c.2)

/-- OdooClient.unlink: authenticate, then call_kw with method unlink. -/
def OdooClient.unlink (st : OdooClient) (net : Net) (i1 i2 : Int)
    (model : String) (ids : List Int) : Except JsError JVal × OdooClient × List Request :=
  match st.authenticate net i1 with
  | (Except.error e, st2, tr) => (Except.error e, st2, tr)
  | (Except.ok _, st2, tr) =>
      let c := st2.call net i2 "/web/dataset/call_kw"
        (kwParams model "unlink" [JVal.arr (ids.map JVal.num)] (JVal.obj []))
      (c.1, st2, tr ++ c.2)

/-- OdooClient.callMethod: authenticate, then call_kw with the given
method, positional arguments and keyword arguments. -/
def OdooClient.callMethod (st : OdooClient) (net : Net) (i1 i2 : Int)
    (model method : String) (args : List JVal := []) (kwargs : JVal := JVal.obj []) :
    Except JsError JVal × OdooClient × List Request :=
  match st.authenticate net i1 with
  | (Except.error e, st2, tr) => (Except.error e, st2, tr)
  | (Except.ok _, st2, tr) =>
      let c := st2.call net i2 "/web/dataset/call_kw" (kwParams model method args kwargs)
      (c.1, st2, tr ++ c.2)

/-- OdooClient.getUserInfo: a bare call to the session-info endpoint. -/
def OdooClient.getUserInfo (st : OdooClient) (net : Net) (reqId : Int) :
    Except JsError JVal × List Request :=
  st.call net reqId "/web/session/get_session_info" (JVal.obj [])

/-- OdooClient.logout: clear uid and sessionId, then call the
session-destroy endpoint, propagating its failure. -/
def OdooClient.logout (st : OdooClient) (net : Net) (reqId : Int) :
    Except JsError Unit × OdooClient × List Request :=
  let st2 : OdooClient := { st with uid := none, sessionId := none }
  let c := st2.call net reqId "/web/session/destroy" (JVal.obj [])
  (c.1.map (fun _ => ()), st2, c.2)

/-- getOdooClient: the module-level singleton accessor.  The first
argument of the result is the returned client, the second the module
variable after the call. -/
def getOdooClient (env : Env) (st : Option OdooClient) (config : Option OdooConfig) :
    OdooClient × Option OdooClient :=
  match st with
  | some c => (c, some c)
  | none =>
      let c := OdooClient.new
        (config.getD { url := (env.VITE_ODOO_URL).getD "", db := (env.VITE_ODOO_DB).getD "" }) env
      (c, some c)

/-- Run a sequence of getOdooClient calls, threading the module variable,
and collect the returned clients. -/
def runGetClients (env : Env) : Option OdooClient → List (Option OdooConfig) → List OdooClient
  | _, [] => []
  | st, cfg :: rest =>
      let r := getOdooClient env st cfg
      r.1 :: runGetClients env r.2 rest

/-
  Concrete fixtures used by counterexamples and witnesses.
-/

/-- A stub server that answers every request with result 7. -/
def netOk7 : Net := fun _ =>
  NetOutcome.ok { jsonrpc := "2.0", id := 0, result := some (JVal.num 7) }

/-- A stub server that answers every request with result 0. -/
def netRes0 : Net := fun _ =>
  NetOutcome.ok { jsonrpc := "2.0", id := 0, result := some (JVal.num 0) }

/-- A stub transport in which every exchange fails. -/
def netDown : Net := fun _ => NetOutcome.transportFail "ECONNREFUSED"

/-- A stub server that answers every request with the error envelope
code 400, message Invalid, data null. -/
def netInvalid : Net := fun _ =>
  NetOutcome.ok { jsonrpc := "2.0", id := 0,
                  error := some { code := 400, message := "Invalid", data := JVal.null } }

/-- A stub server that answers every request with the given error. -/
def netConstErr (e : OdooError) : Net := fun _ =>
  NetOutcome.ok { jsonrpc := "2.0", id := 0, error := some e }

/-- A stub server that answers every request with an empty record list. -/
def netEmptyList : Net := fun _ =>
  NetOutcome.ok { jsonrpc := "2.0", id := 0, result := some (JVal.arr []) }

/-- A fully populated test configuration. -/
def cfgTest : OdooConfig :=
  { url := "http://localhost:8069", db := "testdb",
    username := some "admin", password := some "secret" }

/-- An environment with no variables set. -/
def envNone : Env := {}

/-- A freshly constructed, unauthenticated client. -/
def stFresh : OdooClient := OdooClient.new cfgTest envNone

/-- A client whose authentication already succeeded with uid 7. -/
def stCached : OdooClient := { stFresh with uid := some (JVal.num 7) }

/-- A client constructed from an entirely empty configuration and
environment. -/
def stEmpty : OdooClient := OdooClient.new { url := "", db := "" } envNone

/-
  Shared helper lemmas.
-/

/-- When the cached uid is truthy, authenticate returns it at once with
no state change and no request. -/
theorem auth_cached (net : Net) (reqId : Int) (st : OdooClient) (u : JVal)
    (hu : st.uid = some u) (ht : jsTruthy u = true) :
    st.authenticate net reqId = (Except.ok u, st, []) := by
  unfold OdooClient.authenticate
  rw [hu]
  simp [truthyOpt, ht]

/-- When the cached uid is not truthy, the authenticate trace is exactly
one request to the authentication endpoint. -/
theorem auth_trace_single (net : Net) (reqId : Int) (st : OdooClient)
    (hu : truthyOpt st.uid = false) :
    (st.authenticate net reqId).2.2 =
      [mkRequest st.config.url "/web/session/authenticate" (authParams st.config) reqId] := by
  unfold OdooClient.authenticate
  rw [hu]
  simp only [Bool.false_eq_true, if_false]
  have htr : (st.call net reqId "/web/session/authenticate" (authParams st.config)).2 =
      [mkRequest st.config.url "/web/session/authenticate" (authParams st.config) reqId] := rfl
  cases hc : (st.call net reqId "/web/session/authenticate" (authParams st.config)).1 with
  | ok v => simp [hc, htr]
  | error e => simp [hc, htr]

/-- When the cached uid is not truthy and the call result is an error,
authenticate raises the fixed error and leaves the state unchanged. -/
theorem auth_error (net : Net) (reqId : Int) (st : OdooClient) (e : JsError)
    (hu : truthyOpt st.uid = false)
    (hcall : (st.call net reqId "/web/session/authenticate" (authParams st.config)).1 =
      Except.error e) :
    st.authenticate net reqId =
      (Except.error (JsError.error "Failed to authenticate with Odoo"), st,
       [mkRequest st.config.url "/web/session/authenticate" (authParams st.config) reqId]) := by
  unfold OdooClient.authenticate
  rw [hu]
  simp only [Bool.false_eq_true, if_false]
  have htr : (st.call net reqId "/web/session/authenticate" (authParams st.config)).2 =
      [mkRequest st.config.url "/web/session/authenticate" (authParams st.config) reqId] := rfl
  rw [show (st.call net reqId "/web/session/authenticate" (authParams st.config)) =
      (Except.error e,
       [mkRequest st.config.url "/web/session/authenticate" (authParams st.config) reqId]) from
    Prod.ext hcall htr]

/-
  Claim C1.
-/

/-- Claim C1 counterexample: against a server whose authentication result
is 0, the first authenticate call succeeds and caches uid 0, yet the
second authenticate call issues another network request, because the
cache check tests JavaScript truthiness rather than presence. -/
theorem C1_counterexample :
    (stFresh.authenticate netRes0 1).1 = Except.ok (JVal.num 0) ∧
    ((stFresh.authenticate netRes0 1).2.1).uid = some (JVal.num 0) ∧
    (((stFresh.authenticate netRes0 1).2.1).authenticate netRes0 2).2.2.length = 1 :=
  ⟨rfl, rfl, rfl⟩

/-- Claim C1 (amended): once authenticate has succeeded with a truthy
(in particular nonzero) cached uid, every subsequent authenticate call
returns that cached value immediately, with unchanged state and no
network request. -/
theorem C1_cached_truthy (net : Net) (reqId : Int) (st : OdooClient) (u : JVal)
    (hu : st.uid = some u) (ht : jsTruthy u = true) :
    st.authenticate net reqId = (Except.ok u, st, []) :=
  auth_cached net reqId st u hu ht

/-- Witness for C1_cached_truthy at the concrete client stCached. -/
theorem C1_cached_truthy_witness :
    stCached.authenticate netOk7 5 = (Except.ok (JVal.num 7), stCached, []) :=
  C1_cached_truthy netOk7 5 stCached (JVal.num 7) rfl rfl

/-
  Claim C2.
-/

/-- Claim C2 counterexample: no decoding of the raised error can recover
the numeric code and structured data of the server error envelope,
because call raises new Error carrying only the message; two envelopes
with equal messages but different codes produce the same raised error. -/
theorem C2_counterexample :
    ¬ ∃ decode : JsError → Int × JVal, ∀ (c : Int) (d : JVal) (j : JsError),
      (stFresh.call (netConstErr { code := c, message := "Invalid", data := d }) 1
          "/web/dataset/search_read" (JVal.obj [])).1 = Except.error j →
      decode j = (c, d) := by
  rintro ⟨f, hf⟩
  have h1 := hf 400 JVal.null (JsError.error "Invalid") rfl
  have h2 := hf 500 JVal.null (JsError.error "Invalid") rfl
  have h3 : (400 : Int) = 500 := congrArg Prod.fst (h1.symm.trans h2)
  exact absurd h3 (by decide)

/-- Claim C2 (amended): when the envelope carries an error object, call
raises an error containing exactly the server message; the numeric code
and structured data are discarded. -/
theorem C2_message_only (net : Net) (st : OdooClient) (reqId : Int)
    (endpoint : String) (params : JVal) (resp : OdooResponse) (e : OdooError)
    (hnet : net (mkRequest st.config.url endpoint params reqId) = NetOutcome.ok resp)
    (herr : resp.error = some e) :
    st.call net reqId endpoint params =
      (Except.error (JsError.error e.message),
       [mkRequest st.config.url endpoint params reqId]) := by
  have h1 : (st.call net reqId endpoint params).1 =
      Except.error (JsError.error e.message) := by
    unfold OdooClient.call
    simp only [hnet, herr]
  have h2 : (st.call net reqId endpoint params).2 =
      [mkRequest st.config.url endpoint params reqId] := rfl
  exact Prod.ext h1 h2

/-- Witness for C2_message_only against the stub error envelope. -/
theorem C2_message_only_witness :
    stFresh.call netInvalid 1 "/web/dataset/search_read" (JVal.obj []) =
      (Except.error (JsError.error "Invalid"),
       [mkRequest "http://localhost:8069" "/web/dataset/search_read" (JVal.obj []) 1]) :=
  C2_message_only netInvalid stFresh 1 "/web/dataset/search_read" (JVal.obj [])
    { jsonrpc := "2.0", id := 0,
      error := some { code := 400, message := "Invalid", data := JVal.null } }
    { code := 400, message := "Invalid", data := JVal.null } rfl rfl

/-
  Claim C3.
-/

/-- Claim C3 counterexample: no decoding of the error raised by a failed
first authentication can recover the server-reported reason, because
authenticate replaces every failure by new Error with the fixed message
Failed to authenticate with Odoo. -/
theorem C3_counterexample :
    ¬ ∃ reasonOf : JsError → String, ∀ (msg : String) (j : JsError),
      (stFresh.authenticate (netConstErr { code := 400, message := msg, data := JVal.null }) 1).1 =
        Except.error j →
      reasonOf j = msg := by
  rintro ⟨f, hf⟩
  have h1 := hf "bad login" (JsError.error "Failed to authenticate with Odoo") rfl
  have h2 := hf "expired" (JsError.error "Failed to authenticate with Odoo") rfl
  rw [h1] at h2
  exact absurd h2 (by decide)

/-- Claim C3 (amended): a failed first authentication raises an error
with the fixed message Failed to authenticate with Odoo, discarding the
server-reported reason, and leaves the client state unchanged; data
operations raise protocol errors carrying the server message instead, so
the two are distinguishable only through that fixed message. -/
theorem C3_fixed_auth_error (net : Net) (reqId : Int) (st : OdooClient) (e : JsError)
    (hu : st.uid = none)
    (hcall : (st.call net reqId "/web/session/authenticate" (authParams st.config)).1 =
      Except.error e) :
    (st.authenticate net reqId).1 =
      Except.error (JsError.error "Failed to authenticate with Odoo") ∧
    (st.authenticate net reqId).2.1 = st := by
  have h := auth_error net reqId st e (by rw [hu]; rfl) hcall
  rw [h]
  exact ⟨rfl, rfl⟩

/-- Witness for C3_fixed_auth_error against the stub error envelope. -/
theorem C3_fixed_auth_error_witness :
    (stFresh.authenticate netInvalid 1).1 =
      Except.error (JsError.error "Failed to authenticate with Odoo") ∧
    (stFresh.authenticate netInvalid 1).2.1 = stFresh :=
  C3_fixed_auth_error netInvalid 1 stFresh (JsError.error "Invalid") rfl rfl

/-
  Claim C4.
-/

/-- Claim C4 counterexample: on a client with no session, logout still
issues a session-destroy network call, and when that exchange fails the
logout call raises, contradicting never-raises-without-session. -/
theorem C4_counterexample :
    stFresh.uid = none ∧
    (stFresh.logout netDown 1).1 = Except.error (JsError.axios "ECONNREFUSED") :=
  ⟨rfl, rfl⟩

/-- Claim C4 (amended): logout always clears the cached uid and session
id before issuing a session-destroy call whose outcome it propagates: it
returns without raising exactly when that call succeeds, raises its
transport failure otherwise, and in either case the next authenticate
call performs one fresh authentication network round-trip. -/
theorem C4_clears_and_reauths (net : Net) (reqId : Int) (st : OdooClient) :
    ((st.logout net reqId).2.1).uid = none ∧
    ((st.logout net reqId).2.1).sessionId = none ∧
    (∀ (net2 : Net) (i2 : Int),
      (((st.logout net reqId).2.1).authenticate net2 i2).2.2.length = 1) ∧
    (∀ resp : OdooResponse,
      net (mkRequest st.config.url "/web/session/destroy" (JVal.obj []) reqId) =
        NetOutcome.ok resp →
      resp.error = none → (st.logout net reqId).1 = Except.ok ()) ∧
    (∀ msg : String,
      net (mkRequest st.config.url "/web/session/destroy" (JVal.obj []) reqId) =
        NetOutcome.transportFail msg →
      (st.logout net reqId).1 = Except.error (JsError.axios msg)) := by
  refine ⟨rfl, rfl, ?_, ?_, ?_⟩
  · intro net2 i2
    rw [auth_trace_single net2 i2 ((st.logout net reqId).2.1) rfl]
    rfl
  · intro resp hnet herr
    unfold OdooClient.logout OdooClient.call
    simp only [hnet, herr]
    rfl
  · intro msg hnet
    unfold OdooClient.logout OdooClient.call
    simp only [hnet]
    rfl

/-- Witness for C4_clears_and_reauths at a cached client and a stub
server that lets the destroy call succeed. -/
theorem C4_clears_and_reauths_witness :
    ((stCached.logout netOk7 3).2.1).uid = none ∧
    (stCached.logout netOk7 3).1 = Except.ok () :=
  ⟨(C4_clears_and_reauths netOk7 3 stCached).1,
   (C4_clears_and_reauths netOk7 3 stCached).2.2.2.1
     { jsonrpc := "2.0", id := 0, result := some (JVal.num 7) } rfl rfl⟩

/-
  Claim C5.
-/

/-- Claim C5 counterexample: a caller-supplied limit of 0 does not
override the default; the issued search request carries limit 80 (the
first trace entry is the authentication request, which has no limit
field). -/
theorem C5_counterexample :
    ((stFresh.searchRead netOk7 1 2 "product.product" [] [] { limit := some 0 }).2.2).map
        (fun r => JVal.lookup r.payload.params "limit") = [none, some (JVal.num 80)] ∧
    (80 : Int) ≠ 0 :=
  ⟨rfl, by decide⟩

/-- Claim C5 (amended): on a client with a truthy cached uid, searchRead
issues exactly one request, whose offset is the caller offset with
default 0 and whose sort is the caller order with default empty; the
caller limit is used only when nonzero, and both an absent limit and an
explicit limit of 0 produce the default 80. -/
theorem C5_options_resolution (net : Net) (i1 i2 : Int) (model : String)
    (domain : List JVal) (fields : List String) (opts : SearchOptions)
    (st : OdooClient) (u : JVal) (hu : st.uid = some u) (ht : jsTruthy u = true) :
    ((opts.limit = none ∨ opts.limit = some 0) →
      ((st.searchRead net i1 i2 model domain fields opts).2.2).map
        (fun r => JVal.lookup r.payload.params "limit") = [some (JVal.num 80)]) ∧
    (∀ l : Int, opts.limit = some l → l ≠ 0 →
      ((st.searchRead net i1 i2 model domain fields opts).2.2).map
        (fun r => JVal.lookup r.payload.params "limit") = [some (JVal.num l)]) ∧
    (((st.searchRead net i1 i2 model domain fields opts).2.2).map
        (fun r => JVal.lookup r.payload.params "offset") =
      [some (JVal.num (opts.offset.getD 0))]) ∧
    (((st.searchRead net i1 i2 model domain fields opts).2.2).map
        (fun r => JVal.lookup r.payload.params "sort") =
      [some (JVal.str (opts.order.getD ""))]) := by
  have htr : (st.searchRead net i1 i2 model domain fields opts).2.2 =
      [mkRequest st.config.url "/web/dataset/search_read"
        (searchParams model domain fields opts) i2] := by
    unfold OdooClient.searchRead
    rw [auth_cached net i1 st u hu ht]
    rfl
  obtain ⟨ol, oo, oord⟩ := opts
  refine ⟨?_, ?_, ?_, ?_⟩
  · rintro (h | h) <;> rw [htr] <;> simp only at h <;> subst h <;> rfl
  · intro l hl hne
    rw [htr]
    simp only at hl
    subst hl
    show [some (JVal.num (if l = 0 then 80 else l))] = [some (JVal.num l)]
    rw [if_neg hne]
  · rw [htr]
    cases oo with
    | none => rfl
    | some o =>
        show [some (JVal.num (if o = 0 then 0 else o))] = [some (JVal.num o)]
        rcases eq_or_ne o 0 with h | h
        · subst h; rfl
        · rw [if_neg h]
  · rw [htr]
    cases oord with
    | none => rfl
    | some s =>
        show [some (JVal.str (if s = "" then "" else s))] = [some (JVal.str s)]
        rcases eq_or_ne s "" with h | h
        · subst h; rfl
        · rw [if_neg h]

/-- Witness for C5_options_resolution: a nonzero caller limit is issued
verbatim. -/
theorem C5_options_resolution_witness :
    ((stCached.searchRead netOk7 1 2 "product.product" [] []
        { limit := some 5, offset := some 2, order := some "id desc" }).2.2).map
      (fun r => JVal.lookup r.payload.params "limit") = [some (JVal.num 5)] :=
  (C5_options_resolution netOk7 1 2 "product.product" [] []
      { limit := some 5, offset := some 2, order := some "id desc" }
      stCached (JVal.num 7) rfl rfl).2.1 5 rfl (by decide)

/-
  Claim C6.
-/

/-- Claim C6 counterexample: with entirely empty configuration (empty
url, empty db, absent username and password) the client does not fail
fast: a searchRead call issues two network requests and, against a
permissive stub, even succeeds. -/
theorem C6_counterexample :
    stEmpty.config = { url := "", db := "", username := none, password := none } ∧
    (stEmpty.searchRead netOk7 1 2 "product.product" [] [] {}).1 =
      Except.ok (JVal.num 7) ∧
    ((stEmpty.searchRead netOk7 1 2 "product.product" [] [] {}).2.2).length = 2 :=
  ⟨rfl, rfl, rfl⟩

/-- Claim C6 (amended): the client performs no configuration validation;
even with empty url and db and absent credentials, authentication still
issues its network request, carrying the empty database name and
undefined login and password in the payload. -/
theorem C6_no_validation (net : Net) (reqId : Int) :
    stEmpty.config.url = "" ∧ stEmpty.config.db = "" ∧
    stEmpty.config.username = none ∧ stEmpty.config.password = none ∧
    (stEmpty.authenticate net reqId).2.2 =
      [mkRequest "" "/web/session/authenticate"
        (JVal.obj [("db", JVal.str ""), ("login", JVal.undef), ("password", JVal.undef)])
        reqId] :=
  ⟨rfl, rfl, rfl, rfl, auth_trace_single net reqId stEmpty rfl⟩

/-
  Claim C7.
-/

/-- Claim C7: a response envelope carrying a result and no error object
makes call return that result unchanged without raising, and in
particular a searchRead whose matched record set is empty returns the
empty sequence as a success. -/
theorem C7_result_passthrough :
    (∀ (net : Net) (st : OdooClient) (reqId : Int) (endpoint : String) (params : JVal)
       (resp : OdooResponse) (v : JVal),
      net (mkRequest st.config.url endpoint params reqId) = NetOutcome.ok resp →
      resp.error = none → resp.result = some v →
      st.call net reqId endpoint params =
        (Except.ok v, [mkRequest st.config.url endpoint params reqId])) ∧
    (∀ (net : Net) (i1 i2 : Int) (model : String) (domain : List JVal)
       (fields : List String) (opts : SearchOptions) (st : OdooClient) (u : JVal)
       (resp : OdooResponse),
      st.uid = some u → jsTruthy u = true →
      net (mkRequest st.config.url "/web/dataset/search_read"
        (searchParams model domain fields opts) i2) = NetOutcome.ok resp →
      resp.error = none → resp.result = some (JVal.arr []) →
      (st.searchRead net i1 i2 model domain fields opts).1 = Except.ok (JVal.arr [])) := by
  constructor
  · intro net st reqId endpoint params resp v hnet herr hres
    have h1 : (st.call net reqId endpoint params).1 = Except.ok v := by
      unfold OdooClient.call
      simp only [hnet, herr, hres]
      rfl
    have h2 : (st.call net reqId endpoint params).2 =
        [mkRequest st.config.url endpoint params reqId] := rfl
    exact Prod.ext h1 h2
  · intro net i1 i2 model domain fields opts st u resp hu ht hnet herr hres
    unfold OdooClient.searchRead
    rw [auth_cached net i1 st u hu ht]
    show (st.call net i2 "/web/dataset/search_read"
      (searchParams model domain fields opts)).1 = Except.ok (JVal.arr [])
    unfold OdooClient.call
    simp only [hnet, herr, hres]
    rfl

/-- Witness for C7_result_passthrough: an empty matched record set is
returned as a successful empty sequence. -/
theorem C7_result_passthrough_witness :
    (stCached.searchRead netEmptyList 1 2 "product.product" [] [] {}).1 =
      Except.ok (JVal.arr []) :=
  C7_result_passthrough.2 netEmptyList 1 2 "product.product" [] [] {} stCached
    (JVal.num 7) { jsonrpc := "2.0", id := 0, result := some (JVal.arr []) }
    rfl rfl rfl rfl rfl

/-
  Claim C8.
-/

/-- Claim C8: every data operation authenticates first.  When
authentication fails, the operation returns that failure having issued
only the authentication traffic; every request authenticate issues goes
to the authentication endpoint; and when authentication succeeds, the
operation issues exactly one further request, to its data endpoint,
after the authentication traffic. -/
theorem C8_auth_gates_data_ops :
    (∀ (net : Net) (i1 i2 : Int) (model method : String) (domain args : List JVal)
       (fields : List String) (opts : SearchOptions) (ids : List Int)
       (values kwargs : JVal) (st stA : OdooClient) (e : JsError) (tr : List Request),
      st.authenticate net i1 = (Except.error e, stA, tr) →
      st.searchRead net i1 i2 model domain fields opts = (Except.error e, stA, tr) ∧
      st.create net i1 i2 model values = (Except.error e, stA, tr) ∧
      st.write net i1 i2 model ids values = (Except.error e, stA, tr) ∧
      st.unlink net i1 i2 model ids = (Except.error e, stA, tr) ∧
      st.callMethod net i1 i2 model method args kwargs = (Except.error e, stA, tr)) ∧
    (∀ (net : Net) (i1 : Int) (st : OdooClient) (r : Request),
      r ∈ (st.authenticate net i1).2.2 → r.endpoint = "/web/session/authenticate") ∧
    (∀ (net : Net) (i1 i2 : Int) (model method : String) (domain args : List JVal)
       (fields : List String) (opts : SearchOptions) (ids : List Int)
       (values kwargs : JVal) (st stA : OdooClient) (v : JVal) (tr : List Request),
      st.authenticate net i1 = (Except.ok v, stA, tr) →
      ∃ r1 r2 r3 r4 r5 : Request,
        (st.searchRead net i1 i2 model domain fields opts).2.2 = tr ++ [r1] ∧
        r1.endpoint = "/web/dataset/search_read" ∧
        (st.create net i1 i2 model values).2.2 = tr ++ [r2] ∧
        r2.endpoint = "/web/dataset/call_kw" ∧
        (st.write net i1 i2 model ids values).2.2 = tr ++ [r3] ∧
        r3.endpoint = "/web/dataset/call_kw" ∧
        (st.unlink net i1 i2 model ids).2.2 = tr ++ [r4] ∧
        r4.endpoint = "/web/dataset/call_kw" ∧
        (st.callMethod net i1 i2 model method args kwargs).2.2 = tr ++ [r5] ∧
        r5.endpoint = "/web/dataset/call_kw") := by
  refine ⟨?_, ?_, ?_⟩
  · intro net i1 i2 model method domain args fields opts ids values kwargs st stA e tr hauth
    refine ⟨?_, ?_, ?_, ?_, ?_⟩
    · unfold OdooClient.searchRead; rw [hauth]
    · unfold OdooClient.create; rw [hauth]
    · unfold OdooClient.write; rw [hauth]
    · unfold OdooClient.unlink; rw [hauth]
    · unfold OdooClient.callMethod; rw [hauth]
  · intro net i1 st r hr
    cases hb : truthyOpt st.uid with
    | false =>
        rw [auth_trace_single net i1 st hb] at hr
        have hone : r = mkRequest st.config.url "/web/session/authenticate"
            (authParams st.config) i1 := List.mem_singleton.mp hr
        rw [hone]
        rfl
    | true =>
        cases hu : st.uid with
        | none => rw [hu] at hb; exact absurd hb (by decide)
        | some u =>
            have ht : jsTruthy u = true := by rw [hu] at hb; exact hb
            rw [auth_cached net i1 st u hu ht] at hr
            simp at hr
  · intro net i1 i2 model method domain args fields opts ids values kwargs st stA v tr hauth
    refine ⟨mkRequest stA.config.url "/web/dataset/search_read"
        (searchParams model domain fields opts) i2,
      mkRequest stA.config.url "/web/dataset/call_kw"
        (kwParams model "create" [values] (JVal.obj [])) i2,
      mkRequest stA.config.url "/web/dataset/call_kw"
        (kwParams model "write" [JVal.arr (ids.map JVal.num), values] (JVal.obj [])) i2,
      mkRequest stA.config.url "/web/dataset/call_kw"
        (kwParams model "unlink" [JVal.arr (ids.map JVal.num)] (JVal.obj [])) i2,
      mkRequest stA.config.url "/web/dataset/call_kw"
        (kwParams model method args kwargs) i2,
      ?_, rfl, ?_, rfl, ?_, rfl, ?_, rfl, ?_, rfl⟩
    · unfold OdooClient.searchRead; rw [hauth]; rfl
    · unfold OdooClient.create; rw [hauth]; rfl
    · unfold OdooClient.write; rw [hauth]; rfl
    · unfold OdooClient.unlink; rw [hauth]; rfl
    · unfold OdooClient.callMethod; rw [hauth]; rfl

/-- Witness for C8_auth_gates_data_ops: when authentication fails against
an unreachable server, searchRead returns that failure having issued only
the single authentication request. -/
theorem C8_auth_gates_data_ops_witness :
    stFresh.searchRead netDown 1 2 "product.product" [] [] {} =
      (Except.error (JsError.error "Failed to authenticate with Odoo"), stFresh,
       [mkRequest "http://localhost:8069" "/web/session/authenticate"
          (authParams stFresh.config) 1]) :=
  (C8_auth_gates_data_ops.1 netDown 1 2 "product.product" "m" [] [] [] {} []
    (JVal.obj []) (JVal.obj []) stFresh stFresh
    (JsError.error "Failed to authenticate with Odoo")
    [mkRequest "http://localhost:8069" "/web/session/authenticate"
      (authParams stFresh.config) 1] rfl).1

/-
  Service facade (src/services/odooService.ts): the create and update
  operations of the product, sales-order and partner groups.  Each
  fetches the process-wide client via getOdooClient() with no argument
  and forwards to a client primitive with a fixed model name.
-/

/-- odooProducts.create: forward the value bag to client.create on the
product model. -/
def odooProducts.create (net : Net) (i1 i2 : Int) (env : Env) (g : Option OdooClient)
    (productData : JVal) : Except JsError JVal × OdooClient × List Request :=
  let client := (getOdooClient env g none).1
  client.create net i1 i2 "product.product" productData

/-- odooProducts.update: forward the value bag to client.write on the
product model with the single id. -/
def odooProducts.update (net : Net) (i1 i2 : Int) (env : Env) (g : Option OdooClient)
    (id : Int) (productData : JVal) : Except JsError JVal × OdooClient × List Request :=
  let client := (getOdooClient env g none).1
  client.write net i1 i2 "product.product" [id] productData

/-- odooSalesOrders.create: forward the value bag to client.create on the
sale-order model. -/
def odooSalesOrders.create (net : Net) (i1 i2 : Int) (env : Env) (g : Option OdooClient)
    (orderData : JVal) : Except JsError JVal × OdooClient × List Request :=
  let client := (getOdooClient env g none).1
  client.create net i1 i2 "sale.order" orderData

/-- odooPartners.create: forward the value bag to client.create on the
partner model. -/
def odooPartners.create (net : Net) (i1 i2 : Int) (env : Env) (g : Option OdooClient)
    (partnerData : JVal) : Except JsError JVal × OdooClient × List Request :=
  let client := (getOdooClient env g none).1
  client.create net i1 i2 "res.partner" partnerData

/-
  Spec-side reading of the facade contract, for the refinement claim:
  each create/update operation is exactly the corresponding Remote
  Procedure Client primitive applied with the fixed model name to the
  untouched value bag.
-/

/-- Modelled from the spec wording: products create is the client create
primitive at model product.product with the value bag passed through. -/
def SpecFacade.productsCreate (net : Net) (i1 i2 : Int) (env : Env)
    (g : Option OdooClient) (productData : JVal) :
    Except JsError JVal × OdooClient × List Request :=
  OdooClient.create ((getOdooClient env g none).1) net i1 i2 "product.product" productData

/-- Modelled from the spec wording: products update at id is the client
write primitive at model product.product and id set consisting of that
id, with the value bag passed through. -/
def SpecFacade.productsUpdate (net : Net) (i1 i2 : Int) (env : Env)
    (g : Option OdooClient) (id : Int) (productData : JVal) :
    Except JsError JVal × OdooClient × List Request :=
  OdooClient.write ((getOdooClient env g none).1) net i1 i2 "product.product" [id] productData

/-- Modelled from the spec wording: sales-order create is the client
create primitive at model sale.order. -/
def SpecFacade.salesOrdersCreate (net : Net) (i1 i2 : Int) (env : Env)
    (g : Option OdooClient) (orderData : JVal) :
    Except JsError JVal × OdooClient × List Request :=
  OdooClient.create ((getOdooClient env g none).1) net i1 i2 "sale.order" orderData

/-- Modelled from the spec wording: partner create is the client create
primitive at model res.partner. -/
def SpecFacade.partnersCreate (net : Net) (i1 i2 : Int) (env : Env)
    (g : Option OdooClient) (partnerData : JVal) :
    Except JsError JVal × OdooClient × List Request :=
  OdooClient.create ((getOdooClient env g none).1) net i1 i2 "res.partner" partnerData

/-
  Claim C9.
-/

/-- Claim C9: every facade create/update operation equals the
corresponding Remote Procedure Client primitive applied with its fixed
model name to the untouched value bag, and any client error surfaces
unchanged to the facade caller. -/
theorem C9_facade_passthrough :
    (∀ (net : Net) (i1 i2 : Int) (env : Env) (g : Option OdooClient) (v : JVal),
      odooProducts.create net i1 i2 env g v = SpecFacade.productsCreate net i1 i2 env g v) ∧
    (∀ (net : Net) (i1 i2 : Int) (env : Env) (g : Option OdooClient) (id : Int) (v : JVal),
      odooProducts.update net i1 i2 env g id v =
        SpecFacade.productsUpdate net i1 i2 env g id v) ∧
    (∀ (net : Net) (i1 i2 : Int) (env : Env) (g : Option OdooClient) (v : JVal),
      odooSalesOrders.create net i1 i2 env g v =
        SpecFacade.salesOrdersCreate net i1 i2 env g v) ∧
    (∀ (net : Net) (i1 i2 : Int) (env : Env) (g : Option OdooClient) (v : JVal),
      odooPartners.create net i1 i2 env g v = SpecFacade.partnersCreate net i1 i2 env g v) ∧
    (∀ (net : Net) (i1 i2 : Int) (env : Env) (g : Option OdooClient) (id : Int)
       (v : JVal) (e : JsError),
      (((getOdooClient env g none).1).write net i1 i2 "product.product" [id] v).1 =
        Except.error e →
      (odooProducts.update net i1 i2 env g id v).1 = Except.error e) := by
  refine ⟨fun _ _ _ _ _ _ => rfl, fun _ _ _ _ _ _ _ => rfl,
    fun _ _ _ _ _ _ => rfl, fun _ _ _ _ _ _ => rfl, ?_⟩
  intro net i1 i2 env g id v e h
  exact h

/-- Witness for C9_facade_passthrough: a failed client write surfaces
unchanged through the facade. -/
theorem C9_facade_passthrough_witness :
    (odooProducts.update netDown 1 2 envNone (some stFresh) 5 (JVal.obj [])).1 =
      Except.error (JsError.error "Failed to authenticate with Odoo") :=
  C9_facade_passthrough.2.2.2.2 netDown 1 2 envNone (some stFresh) 5 (JVal.obj [])
    (JsError.error "Failed to authenticate with Odoo") rfl

/-
  Claim C10.
-/

/-- Once the singleton holds a client, every getOdooClient call returns
it and keeps holding it, regardless of the config argument. -/
theorem runGetClients_saturated (env : Env) (c : OdooClient) :
    ∀ cfgs : List (Option OdooConfig),
      runGetClients env (some c) cfgs = cfgs.map (fun _ => c)
  | [] => rfl
  | _ :: rest => by
      rw [List.map_cons]
      show c :: runGetClients env (some c) rest = c :: rest.map (fun _ => c)
      rw [runGetClients_saturated env c rest]

/-- Claim C10: in any sequence of getOdooClient calls starting from an
empty module variable, every call after the first returns exactly the
client the first call constructed, and the config arguments of all later
calls are ignored. -/
theorem C10_singleton (env : Env) (cfg0 : Option OdooConfig)
    (rest : List (Option OdooConfig)) :
    runGetClients env none (cfg0 :: rest) =
      (getOdooClient env none cfg0).1 ::
        rest.map (fun _ => (getOdooClient env none cfg0).1) := by
  show (getOdooClient env none cfg0).1 ::
      runGetClients env (getOdooClient env none cfg0).2 rest = _
  rw [show (getOdooClient env none cfg0).2 = some ((getOdooClient env none cfg0).1) from rfl]
  rw [runGetClients_saturated env ((getOdooClient env none cfg0).1) rest]
